import Mathlib

/-!
Verification of the linkedin_scrapper repository.

This file gives a shallow embedding of the parts of the code that the
specification claims talk about:

* the connections table and the update-or-insert path of
  save_single_connection (src/linkedin_scrapper.py, src/models.py),
  including the fact that the insert branch passes the keyword
  source_profile to a declarative model with no such column, so the
  constructor raises TypeError and the insert arm always fails;
* the scroll loop of Scrapper.human_like_behavior, modelled as a step
  function on an explicit state driven by a sequence of measured page
  heights and a fuel bound (the real loop has no fuel; the fuel lets us
  talk about partial executions and divergence);
* the run-local deduplication loop of get_profile_connections;
* the connection-count parser Scrapper.extract_connection_count,
  together with a model of the CPython int builtin on strings;
* the browser lifecycle manager PersistentBrowser (start, save_state,
  close), with an explicit fault oracle for the close path.

Timestamps, ids and page heights are natural numbers supplied by the
caller; database faults and release faults are explicit parameters,
standing for the exceptions the Python code catches or propagates.
-/

namespace LinkedinScrapper

/-- A row of the connections table, with exactly the mapped columns of
class Connection (src/models.py lines 13-18): id, name, occupation,
profile_url, first_seen, last_updated.  There is no source_profile
column.  The id column is modelled by an explicit fresh id chosen on
insert; the first_seen and last_updated columns are modelled as
caller-supplied clock values, matching the func.now defaults and the
onupdate hook. -/
structure ConnRow where
  id : Nat
  name : String
  occupation : String
  profile_url : String
  first_seen : Nat
  last_updated : Nat
deriving DecidableEq

/-- The three fields of the connection dict built in
get_profile_connections (src/linkedin_scrapper.py lines 180-184). -/
structure ConnData where
  name : String
  occupation : String
  profile_url : String
deriving DecidableEq

/-- session.query(Connection).filter_by(profile_url=url).first() over a
list-modelled table (src/linkedin_scrapper.py lines 45-47). -/
def findByUrl (db : List ConnRow) (url : String) : Option ConnRow :=
  db.find? (fun r => r.profile_url == url)

/-- The update branch of save_single_connection
(src/linkedin_scrapper.py lines 49-54).  The matched row keeps id and
first_seen, receives the new name and occupation, and last_updated is
set by the onupdate hook of models.py when the UPDATE is flushed (the
claims only exercise updates that change a field).  The assignment
existing.source_profile on line 53 binds a plain non-mapped Python
attribute of the instance, since Connection has no source_profile
column, so it changes no column of the stored row.  profile_url
carries a unique constraint in the schema, so mapping the update over
the whole table touches exactly the matched row. -/
def updateConnection (db : List ConnRow) (cd : ConnData) (now : Nat) :
    List ConnRow :=
  db.map (fun r =>
    if r.profile_url == cd.profile_url then
      { r with name := cd.name, occupation := cd.occupation,
               last_updated := now }
    else r)

/-- The mapped column names of class Connection
(src/models.py lines 13-18). -/
def connectionColumns : List String :=
  ["id", "name", "occupation", "profile_url", "first_seen", "last_updated"]

/-- The keyword arguments that the insert branch of
save_single_connection passes to the Connection constructor
(src/linkedin_scrapper.py lines 57-62). -/
def saveKwargs : List String :=
  ["name", "occupation", "profile_url", "source_profile"]

/-- The default constructor of a declarative model accepts exactly the
mapped attribute names as keywords and raises TypeError on any other
keyword; true means the construction succeeds. -/
def declarativeCtorOk (kwargs : List String) : Bool :=
  kwargs.all (fun k => connectionColumns.contains k)

/-- An ORM session as used by save_single_connection: a base store (what
is durably committed) plus a staged store (the pending unit of work). -/
structure OrmSession where
  base : List ConnRow
  staged : List ConnRow

/-- Session() : a fresh session sees the committed store and has no
pending changes. -/
def sessionBegin (db : List ConnRow) : OrmSession := ⟨db, db⟩

/-- session.commit() : the staged changes become the store. -/
def sessionCommit (s : OrmSession) : List ConnRow := s.staged

/-- session.rollback() : the staged changes are discarded and the store
is left as it was when the session began. -/
def sessionRollback (s : OrmSession) : List ConnRow := s.base

/-- Where, if anywhere, the try body of save_single_connection raises
(src/linkedin_scrapper.py lines 43-73): during the initial query,
during the update-or-insert work, during commit, or nowhere. -/
inductive SaveOutcome
  | ok
  | failQuery
  | failFlush
  | failCommit
deriving DecidableEq

/-- save_single_connection (src/linkedin_scrapper.py lines 40-76): the
row with the given profile_url is looked up; if present, the update
branch stages the field updates and the commit makes them durable,
returning True; if absent, the insert branch calls the Connection
constructor with the keyword source_profile, which is not a mapped
column of Connection, so the constructor raises TypeError before
anything is staged.  Every raise — the constructor TypeError as well as
an injected database fault from the oracle — is caught by the except
branch, which rolls the session back and returns False without
re-raising (the function is total).  The source_profile argument feeds
only the non-mapped attribute assignment of the update branch and the
rejected constructor keyword, so it reaches no column. -/
def saveSingleConnection (db : List ConnRow) (cd : ConnData)
    (source_profile : String) (now fresh : Nat) (out : SaveOutcome) :
    List ConnRow × Bool :=
  let s0 := sessionBegin db
  match out with
  | SaveOutcome.failQuery => (sessionRollback s0, false)
  | _ =>
    match findByUrl s0.staged cd.profile_url with
    | some _ =>
        let s1 : OrmSession :=
          { s0 with staged := updateConnection s0.staged cd now }
        match out with
        | SaveOutcome.failFlush => (sessionRollback s1, false)
        | SaveOutcome.failCommit => (sessionRollback s1, false)
        | _ => (sessionCommit s1, true)
    | none =>
        if declarativeCtorOk saveKwargs then
          let s1 : OrmSession :=
            { s0 with staged := s0.staged ++
                [{ id := fresh, name := cd.name, occupation := cd.occupation,
                   profile_url := cd.profile_url,
                   first_seen := now, last_updated := now }] }
          match out with
          | SaveOutcome.failFlush => (sessionRollback s1, false)
          | SaveOutcome.failCommit => (sessionRollback s1, false)
          | _ => (sessionCommit s1, true)
        else
          (sessionRollback s0, false)

/-- The state of the scroll loop of Scrapper.human_like_behavior
(src/linkedin_scrapper.py lines 415-443): last_height, all_loaded and
scroll_attempts are the Python locals; saves records the 1-based
ordinals of the cycles on which save_state was called, and cycles
counts the loop iterations executed (both are ghost instrumentation
that does not feed back into the control flow). -/
structure ScrollState where
  lastHeight : Nat
  allLoaded : Bool
  attempts : Nat
  saves : List Nat
  cycles : Nat
deriving DecidableEq

/-- The loop state right after the initial height measurement
(src/linkedin_scrapper.py lines 418-421). -/
def scrollInit (h0 : Nat) : ScrollState := ⟨h0, false, 0, [], 0⟩

/-- One iteration of the while body (src/linkedin_scrapper.py lines
425-443), given the height measured on this cycle.  If the height is
unchanged the stagnation counter is incremented and, at three, the loop
is declared loaded; otherwise the counter resets to zero and the height
is remembered.  Afterwards, save_state is called when the (updated)
stagnation counter is divisible by five. -/
def scrollStep (newHeight : Nat) (s : ScrollState) : ScrollState :=
  let s1 :=
    if newHeight = s.lastHeight then
      { s with attempts := s.attempts + 1,
               allLoaded := if s.attempts + 1 ≥ 3 then true else s.allLoaded }
    else
      { s with attempts := 0, lastHeight := newHeight }
  let s2 := { s1 with cycles := s.cycles + 1 }
  if s2.attempts % 5 = 0 then { s2 with saves := s2.saves ++ [s2.cycles] } else s2

/-- The while loop of human_like_behavior run for at most fuel cycles:
h n is the page height measured on cycle n (0-based), and the loop
stops as soon as the guard (not all_loaded and scroll_attempts < 20)
fails.  The Python loop has no fuel; a run of the Python loop that
terminates is a run in which the guard fails within some fuel, and a
height sequence on which the guard holds after every fuel is a height
sequence on which the Python loop never exits. -/
def runLoop (h : Nat → Nat) : Nat → ScrollState → ScrollState
  | 0, s => s
  | fuel+1, s =>
    if s.allLoaded = false ∧ s.attempts < 20 then
      runLoop h fuel (scrollStep (h s.cycles) s)
    else s

/-- The height against which cycle n compares: the initial measurement
for cycle 0, and the previous cycle measurement afterwards (the loop
keeps last_height equal to the last measured height). -/
def prevHeight (h0 : Nat) (h : Nat → Nat) : Nat → Nat
  | 0 => h0
  | n+1 => h n

/-- The per-item accept loop of get_profile_connections
(src/linkedin_scrapper.py lines 164-196), run over the sequence of
extracted (name, occupation, profile_url) tuples of the whole run.
seen is the run-local connections list; the second component of the
result lists, in order, the tuples for which save_single_connection
was invoked.  An item is accepted only when it is not already in seen
and its name is not the sentinel, and every accepted item is handed to
persistence exactly when it is appended. -/
def processElements : List ConnData → List ConnData → List ConnData × List ConnData
  | [], seen => (seen, [])
  | c :: rest, seen =>
    if c ∉ seen ∧ c.name ≠ "N/A" then
      let r := processElements rest (seen ++ [c])
      (r.1, c :: r.2)
    else
      processElements rest seen

/-- The calls PersistentBrowser.close can make
(src/persistent_browser.py lines 45-55). -/
inductive CloseStep
  | saveCall
  | pageClose
  | contextClose
  | browserClose
deriving DecidableEq

/-- Which of the three playwright resources the manager currently holds
(each is an Optional in src/persistent_browser.py lines 14-16; a held
resource is a non-None field). -/
structure PBState where
  hasPage : Bool
  hasContext : Bool
  hasBrowser : Bool
deriving DecidableEq

/-- PersistentBrowser.save_state (src/persistent_browser.py lines
40-43): when a context is held, storage_state writes the session file
and may raise; with no context nothing happens.  Returns (file written,
exception raised). -/
def saveStateRun (hasCtx : Bool) (fail : Bool) : Bool × Bool :=
  (hasCtx && !fail, hasCtx && fail)

/-- The release calls the finally block of close would make, in program
order, for the resources currently held (src/persistent_browser.py
lines 50-55). -/
def releaseSeq (st : PBState) : List CloseStep :=
  (if st.hasPage then [CloseStep.pageClose] else []) ++
  (if st.hasContext then [CloseStep.contextClose] else []) ++
  (if st.hasBrowser then [CloseStep.browserClose] else [])

/-- Straight-line execution of the release calls: the finally block of
close has no inner try, so the first release that raises aborts the
block and the remaining releases are not attempted.  Returns the calls
attempted and whether an exception escaped. -/
def runReleases (fails : CloseStep → Bool) : List CloseStep → List CloseStep × Bool
  | [] => ([], false)
  | s :: rest =>
    if fails s then ([s], true)
    else
      let r := runReleases fails rest
      (s :: r.1, r.2)

/-- PersistentBrowser.close (src/persistent_browser.py lines 45-55):
save_state is attempted inside try, and the finally block then runs the
releases whatever save_state did; close raises iff save_state raised or
some attempted release raised.  Returns the calls attempted, in order,
and whether an exception escaped close. -/
def closeRun (st : PBState) (fails : CloseStep → Bool) : List CloseStep × Bool :=
  let save := saveStateRun st.hasContext (fails CloseStep.saveCall)
  let rel := runReleases fails (releaseSeq st)
  (CloseStep.saveCall :: rel.1, rel.2 || save.2)

/-- The condition of the session-state file at startup. -/
inductive StateFile | missing | valid | corrupt
deriving DecidableEq

/-- A browsing context, recording whether it was initialized from a
stored session state. -/
structure BrowserCtx where
  fromStoredState : Bool
deriving DecidableEq

/-- os.path.exists(self.storage_state_path)
(src/persistent_browser.py line 32). -/
def pathExists : StateFile → Bool
  | StateFile.missing => false
  | StateFile.valid => true
  | StateFile.corrupt => true

/-- Modelled from the spec: the browser dependency is outside src, and
spec section 4.1 describes browser.new_context as creating a fresh
anonymous context when no storage_state is supplied, restoring the
stored state when a readable file is supplied, and failing (raising)
when the supplied file is corrupt or unreadable. -/
def newContext (storage : Option StateFile) : Except String BrowserCtx :=
  match storage with
  | none => Except.ok ⟨false⟩
  | some StateFile.valid => Except.ok ⟨true⟩
  | some StateFile.corrupt => Except.error "invalid storage state file"
  | some StateFile.missing => Except.error "storage state file not found"

/-- The context-creation logic of PersistentBrowser.start
(src/persistent_browser.py lines 30-36): the storage_state parameter is
passed exactly when the session-state file exists, and whatever
new_context does is neither caught nor replaced. -/
def startBrowser (fs : StateFile) : Except String BrowserCtx :=
  newContext (if pathExists fs then some fs else none)

/-- text.split(" ")[0] : everything before the first space character
(with a single-character separator, Python split never returns an empty
list, so the index is always in range and the whole string is returned
when no space occurs). -/
def firstToken (s : String) : String :=
  String.mk (s.toList.takeWhile (fun c => c ≠ ' '))

/-- s.replace(",", "") : drop every comma. -/
def removeCommas (s : String) : String :=
  String.mk (s.toList.filter (fun c => c ≠ ','))

/-- Continuation of the digit grammar of the CPython int builtin after
one digit has been read: further digits, with single underscores
allowed only between digits. -/
def digitsCore : List Char → Bool
  | [] => true
  | '_' :: [] => false
  | '_' :: c :: rest => c.isDigit && digitsCore rest
  | c :: rest => c.isDigit && digitsCore rest

/-- A nonempty ASCII digit run with single underscores between digits,
the digit part of the CPython int grammar. -/
def validDigits (l : List Char) : Bool :=
  match l with
  | [] => false
  | c :: rest => c.isDigit && digitsCore rest

/-- The numeric value of a digit run, ignoring underscores. -/
def digitsToNat (l : List Char) : Nat :=
  (l.filter (fun c => c ≠ '_')).foldl (fun a c => a * 10 + (c.toNat - 48)) 0

/-- Leading and trailing whitespace removal, as the CPython int builtin
performs before parsing. -/
def stripWs (l : List Char) : List Char :=
  ((l.dropWhile Char.isWhitespace).reverse.dropWhile Char.isWhitespace).reverse

/-- The CPython int builtin applied to a string (ASCII digits):
surrounding whitespace is ignored, one optional sign is allowed, and
the rest must be a digit run with single underscores between digits;
none models the ValueError raised on any other input. -/
def pythonInt (s : String) : Option Int :=
  match stripWs s.toList with
  | '+' :: rest => if validDigits rest then some (digitsToNat rest : Int) else none
  | '-' :: rest => if validDigits rest then some (-(digitsToNat rest : Int)) else none
  | rest => if validDigits rest then some (digitsToNat rest : Int) else none

/-- Scrapper.extract_connection_count (src/linkedin_scrapper.py lines
508-515): take the text before the first space, drop commas, parse with
int; ValueError and IndexError are caught and yield 0. -/
def extract_connection_count (text : String) : Int :=
  match pythonInt (removeCommas (firstToken text)) with
  | some n => n
  | none => 0

/-- Releases on which no fault occurs are all attempted, in order, and
no exception escapes the block. -/
theorem runReleases_all_ok (fails : CloseStep → Bool) :
    ∀ l : List CloseStep, (∀ s ∈ l, fails s = false) →
      runReleases fails l = (l, false) := by
  intro l
  induction l with
  | nil => intro _; rfl
  | cons a t ih =>
    intro hall
    have ha : fails a = false := hall a (by simp)
    have ht := ih (fun s hs => hall s (by simp [hs]))
    simp [runReleases, ha, ht]

/-- The finally block of close performs no save_state call: saveCall is
never among the releases. -/
theorem saveCall_not_mem_releaseSeq (st : PBState) :
    CloseStep.saveCall ∉ releaseSeq st := by
  rcases st with ⟨p, c, b⟩
  cases p <;> cases c <;> cases b <;> simp [releaseSeq]

/-- Evaluation of the constructor check at the keywords the insert
branch passes: source_profile is not a mapped column, so the
construction is rejected. -/
theorem declarativeCtorOk_saveKwargs : declarativeCtorOk saveKwargs = false :=
  rfl

/-- C6: save_single_connection either commits the upsert and returns
True, or, on any failure, rolls the transaction back (so the returned
store is exactly the input store, even when changes had already been
staged), reports the failure without re-raising it (the embedding is a
total function) and returns False, so one failing record never aborts
the run.  The failures are the injected database faults (query, flush,
commit) together with the TypeError the insert branch always raises
because source_profile is not a column of Connection; the committing
path is therefore the update of an existing row. -/
theorem claim_C6 :
    ∀ (db : List ConnRow) (cd : ConnData) (source_profile : String)
      (now fresh : Nat) (out : SaveOutcome),
      (out ≠ SaveOutcome.ok →
        saveSingleConnection db cd source_profile now fresh out =
          (db, false)) ∧
      (out = SaveOutcome.ok → findByUrl db cd.profile_url = none →
        saveSingleConnection db cd source_profile now fresh out =
          (db, false)) ∧
      (out = SaveOutcome.ok → findByUrl db cd.profile_url ≠ none →
        saveSingleConnection db cd source_profile now fresh out =
          (updateConnection db cd now, true)) := by
  intro db cd source_profile now fresh out
  refine ⟨?_, ?_, ?_⟩
  · intro hne
    cases out with
    | ok => exact absurd rfl hne
    | failQuery => rfl
    | failFlush =>
        cases hf : findByUrl db cd.profile_url <;>
          simp [saveSingleConnection, hf, sessionBegin, sessionRollback,
            declarativeCtorOk_saveKwargs]
    | failCommit =>
        cases hf : findByUrl db cd.profile_url <;>
          simp [saveSingleConnection, hf, sessionBegin, sessionRollback,
            declarativeCtorOk_saveKwargs]
  · intro hok hf
    subst hok
    simp [saveSingleConnection, hf, sessionBegin, sessionRollback,
      declarativeCtorOk_saveKwargs]
  · intro hok hne
    subst hok
    cases hf : findByUrl db cd.profile_url with
    | none => exact absurd hf hne
    | some row =>
        simp [saveSingleConnection, hf, sessionBegin, sessionCommit]

/-- Witness for C6: a commit-time failure on the empty store returns it
unchanged with False, and a fault-free call on a store holding the url
commits the update and returns True. -/
theorem claim_C6_witness :
    saveSingleConnection [] ⟨"A", "B", "u"⟩ "s" 3 7 SaveOutcome.failCommit =
      ([], false) ∧
    saveSingleConnection [⟨5, "A", "B", "u", 1, 1⟩] ⟨"A", "C", "u"⟩ "s" 3 7
        SaveOutcome.ok =
      (updateConnection [⟨5, "A", "B", "u", 1, 1⟩] ⟨"A", "C", "u"⟩ 3, true) :=
  ⟨(claim_C6 [] ⟨"A", "B", "u"⟩ "s" 3 7 SaveOutcome.failCommit).1 (by decide),
   (claim_C6 [⟨5, "A", "B", "u", 1, 1⟩] ⟨"A", "C", "u"⟩ "s" 3 7
       SaveOutcome.ok).2.2 rfl (by decide)⟩

/-- C7: when the session-state file does not exist, start succeeds with
a fresh anonymous context (one not initialized from stored state); when
the file exists and is readable, the context is restored from it; when
the file exists but is corrupt, start propagates the initialization
failure of the context creation, with no silent fallback to an
anonymous context. -/
theorem claim_C7 :
    startBrowser StateFile.missing = Except.ok ⟨false⟩ ∧
    startBrowser StateFile.valid = Except.ok ⟨true⟩ ∧
    startBrowser StateFile.corrupt =
      Except.error "invalid storage state file" :=
  ⟨rfl, rfl, rfl⟩

/-- C10: on a PersistentBrowser on which start has never been called
(no browser, context or page is held), save_state writes nothing and
raises nothing, and close attempts only the save_state call, releases
nothing and raises nothing, whatever faults the oracle would inject. -/
theorem claim_C10 :
    ∀ (fails : CloseStep → Bool) (fail2 : Bool),
      closeRun ⟨false, false, false⟩ fails = ([CloseStep.saveCall], false) ∧
      saveStateRun false fail2 = (false, false) := by
  intro fails fail2
  constructor
  · simp [closeRun, releaseSeq, runReleases, saveStateRun]
  · simp [saveStateRun]

/-- Counterexample to C4 as stated: with all three resources held and a
fault injected only in page.close, the context release (and the browser
release) is never attempted, so a failure in one release does prevent
the subsequent releases. -/
theorem claim_C4_counterexample :
    (⟨true, true, true⟩ : PBState).hasContext = true ∧
    CloseStep.contextClose ∉
      (closeRun ⟨true, true, true⟩
        (fun s => decide (s = CloseStep.pageClose))).1 ∧
    CloseStep.browserClose ∉
      (closeRun ⟨true, true, true⟩
        (fun s => decide (s = CloseStep.pageClose))).1 := by
  decide

/-- C4 as amended: close always attempts save_state first and then the
releases of the held resources in the order page, context, browser; a
failure in save_state does not prevent any release from being
attempted; but a failure in the page release skips the context and
browser releases (the finally block is straight-line). -/
theorem claim_C4_amended :
    ∀ (st : PBState) (fails : CloseStep → Bool),
      ((∀ s : CloseStep, s ≠ CloseStep.saveCall → fails s = false) →
        (closeRun st fails).1 = CloseStep.saveCall :: releaseSeq st) ∧
      (st.hasPage = true → fails CloseStep.pageClose = true →
        CloseStep.contextClose ∉ (closeRun st fails).1 ∧
        CloseStep.browserClose ∉ (closeRun st fails).1) := by
  intro st fails
  constructor
  · intro hok
    have hall : ∀ s ∈ releaseSeq st, fails s = false := by
      intro s hs
      have : s ≠ CloseStep.saveCall := by
        intro he
        exact saveCall_not_mem_releaseSeq st (he ▸ hs)
      exact hok s this
    simp [closeRun, runReleases_all_ok fails (releaseSeq st) hall]
  · intro hp hf
    rcases st with ⟨p, c, b⟩
    simp only at hp
    subst hp
    simp [closeRun, releaseSeq, runReleases, hf]

/-- Witness for C4 as amended: with every resource held and no faults,
the attempted calls are exactly save_state then the three releases. -/
theorem claim_C4_amended_witness :
    (closeRun ⟨true, true, true⟩ (fun _ => false)).1 =
      CloseStep.saveCall :: releaseSeq ⟨true, true, true⟩ :=
  (claim_C4_amended ⟨true, true, true⟩ (fun _ => false)).1 (fun _ _ => rfl)

/-- C8: extract_connection_count parses the documented example to 1704,
parses the empty string to 0, parses a digit-free header to 0, and on
every input whose cleaned first token the int builtin rejects it
returns 0 instead of raising (the embedding is a total function). -/
theorem claim_C8 :
    extract_connection_count "1,704 Connections" = 1704 ∧
    extract_connection_count "" = 0 ∧
    extract_connection_count "Connections" = 0 ∧
    (∀ s : String, pythonInt (removeCommas (firstToken s)) = none →
      extract_connection_count s = 0) := by
  refine ⟨by decide, by decide, by decide, ?_⟩
  intro s h
  simp [extract_connection_count, h]

/-- Witness for C8 at a concrete unparsable input. -/
theorem claim_C8_witness :
    pythonInt (removeCommas (firstToken "12cats")) = none ∧
    extract_connection_count "12cats" = 0 :=
  ⟨by decide, claim_C8.2.2.2 "12cats" (by decide)⟩

/-- Unfolding of one loop iteration with remaining fuel. -/
theorem runLoop_succ (h : Nat → Nat) (fuel : Nat) (s : ScrollState) :
    runLoop h (fuel + 1) s =
      if s.allLoaded = false ∧ s.attempts < 20 then
        runLoop h fuel (scrollStep (h s.cycles) s)
      else s := rfl

/-- A loaded state is terminal: the guard fails and the loop returns it
unchanged however much fuel remains. -/
theorem runLoop_loaded (h : Nat → Nat) :
    ∀ (fuel : Nat) (s : ScrollState), s.allLoaded = true →
      runLoop h fuel s = s := by
  intro fuel
  induction fuel with
  | zero => intro s _; rfl
  | succ n ih => intro s hs; simp [runLoop_succ, hs]

/-- A cycle with unchanged height, entered with a stagnation counter
whose successor is not a multiple of five, increments the counter,
possibly declares the page loaded, keeps the height, and does not call
save_state. -/
theorem scrollStep_stagnant (s : ScrollState) (hn : Nat)
    (heq : hn = s.lastHeight) (hlt : s.attempts + 1 < 5) :
    scrollStep hn s =
      { s with attempts := s.attempts + 1,
               allLoaded := if s.attempts + 1 ≥ 3 then true else s.allLoaded,
               cycles := s.cycles + 1 } := by
  have hmod : ¬ (s.attempts + 1) % 5 = 0 := by omega
  simp [scrollStep, heq, hmod]

/-- A cycle with changed height resets the stagnation counter to zero,
remembers the new height, and calls save_state (zero is a multiple of
five). -/
theorem scrollStep_changed (s : ScrollState) (hn : Nat)
    (hne : hn ≠ s.lastHeight) :
    scrollStep hn s =
      { s with attempts := 0, lastHeight := hn,
               cycles := s.cycles + 1,
               saves := s.saves ++ [s.cycles + 1] } := by
  simp [scrollStep, hne]

/-- On the strictly increasing height sequence, the loop state after
any number of cycles is still running: all_loaded is false, the
stagnation counter is zero, and the cycle count equals the fuel
consumed (the saves trace is existentially packaged since it does not
feed back into the control flow). -/
theorem runLoop_inc_aux :
    ∀ (fuel n : Nat) (sv : List Nat), ∃ sv2 : List Nat,
      runLoop (fun m => m + 1) fuel ⟨n, false, 0, sv, n⟩ =
        ⟨n + fuel, false, 0, sv2, n + fuel⟩ := by
  intro fuel
  induction fuel with
  | zero => intro n sv; exact ⟨sv, rfl⟩
  | succ f ih =>
    intro n sv
    obtain ⟨sv2, h2⟩ := ih (n + 1) (sv ++ [n + 1])
    refine ⟨sv2, ?_⟩
    rw [show n + (f + 1) = (n + 1) + f from by omega, ← h2]
    rw [runLoop_succ, if_pos ⟨rfl, by show (0:Nat) < 20; omega⟩]
    congr 1
    have hne : n + 1 ≠ n := by omega
    simp [scrollStep, hne]

/-- C2, evaluated at the failing input: on a page-height sequence that
strictly increases on every cycle (initial height 0, measured height
n + 1 on cycle n) the loop guard never fails, because scroll_attempts
is reset to zero on every height change and only stagnant cycles are
counted against the ceiling of 20; after any amount of fuel the loop is
still running (all_loaded false, counter zero, cycle count equal to the
fuel), so the loop performs unboundedly many cycles and never stops,
contradicting the claimed hard ceiling of exactly 20 cycles and the
comment in the source that the limit prevents infinite loops. -/
theorem claim_C2 :
    ∀ fuel : Nat,
      (runLoop (fun n => n + 1) fuel (scrollInit 0)).allLoaded = false ∧
      (runLoop (fun n => n + 1) fuel (scrollInit 0)).attempts = 0 ∧
      (runLoop (fun n => n + 1) fuel (scrollInit 0)).cycles = fuel := by
  intro fuel
  obtain ⟨sv2, h2⟩ := runLoop_inc_aux fuel 0 []
  have h0 : scrollInit 0 = ⟨0, false, 0, [], 0⟩ := rfl
  rw [h0, h2]
  simp

/-- Witness for C2: after 25 cycles of fuel, five past the claimed
ceiling, the loop is still running. -/
theorem claim_C2_witness :
    (runLoop (fun n => n + 1) 25 (scrollInit 0)).allLoaded = false ∧
    (runLoop (fun n => n + 1) 25 (scrollInit 0)).attempts = 0 ∧
    (runLoop (fun n => n + 1) 25 (scrollInit 0)).cycles = 25 :=
  claim_C2 25

/-- Three consecutive stagnant measurements drive any running state
with counter at most 2 into the loaded terminal state with counter
exactly 3. -/
theorem stagnant_run (h : Nat → Nat) :
    ∀ s : ScrollState, s.allLoaded = false → s.attempts ≤ 2 →
      h s.cycles = s.lastHeight →
      h (s.cycles + 1) = s.lastHeight →
      h (s.cycles + 2) = s.lastHeight →
      ∀ fuel, 3 ≤ fuel →
        (runLoop h fuel s).allLoaded = true ∧
        (runLoop h fuel s).attempts = 3 := by
  rintro ⟨lh, al, a, sv, cy⟩ hl ha h1 h2 h3 fuel hf
  simp only at hl h1 h2 h3 ha
  subst hl
  obtain ⟨f, rfl⟩ : ∃ f, fuel = f + 1 + 1 + 1 := ⟨fuel - 3, by omega⟩
  have h3' : h (cy + 1 + 1) = lh := h3
  interval_cases a <;>
    simp [runLoop_succ, scrollStep, h1, h2, h3', runLoop_loaded]

/-- Generalization of the stagnation claim to a stagnation window that
starts k cycles ahead of the current (running) state. -/
theorem stag_aux (h0 : Nat) (h : Nat → Nat) :
    ∀ (k : Nat) (s : ScrollState),
      s.allLoaded = false → s.attempts ≤ 2 →
      s.lastHeight = prevHeight h0 h s.cycles →
      h (s.cycles + k) = prevHeight h0 h (s.cycles + k) →
      h (s.cycles + k + 1) = h (s.cycles + k) →
      h (s.cycles + k + 2) = h (s.cycles + k + 1) →
      ∀ fuel, k + 3 ≤ fuel →
        (runLoop h fuel s).allLoaded = true ∧
        (runLoop h fuel s).attempts = 3 := by
  intro k
  induction k with
  | zero =>
    intro s hl ha hlast hk hk1 hk2 fuel hf
    have e0 : s.cycles + 0 = s.cycles := by omega
    rw [e0] at hk hk1 hk2
    have h1 : h s.cycles = s.lastHeight := by rw [hk, ← hlast]
    have h2 : h (s.cycles + 1) = s.lastHeight := by rw [hk1, h1]
    have h3 : h (s.cycles + 2) = s.lastHeight := by rw [hk2, h2]
    exact stagnant_run h s hl ha h1 h2 h3 fuel (by omega)
  | succ k ih =>
    intro s hl ha hlast hk hk1 hk2 fuel hf
    obtain ⟨f, rfl⟩ : ∃ f, fuel = f + 1 := ⟨fuel - 1, by omega⟩
    rw [runLoop_succ, if_pos ⟨hl, by omega⟩]
    by_cases hc : h s.cycles = s.lastHeight
    · have hstep := scrollStep_stagnant s _ hc (by omega)
      have hat : (scrollStep (h s.cycles) s).attempts = s.attempts + 1 := by
        rw [hstep]
      have hcy : (scrollStep (h s.cycles) s).cycles = s.cycles + 1 := by
        rw [hstep]
      have hlh : (scrollStep (h s.cycles) s).lastHeight = s.lastHeight := by
        rw [hstep]
      by_cases h3 : s.attempts + 1 ≥ 3
      · have hld : (scrollStep (h s.cycles) s).allLoaded = true := by
          rw [hstep]
          simp [h3]
        rw [runLoop_loaded _ _ _ hld]
        refine ⟨hld, ?_⟩
        rw [hat]
        omega
      · have hal : (scrollStep (h s.cycles) s).allLoaded = false := by
          rw [hstep]
          simp [h3, hl]
        apply ih
        · exact hal
        · rw [hat]; omega
        · rw [hlh, hcy]
          show s.lastHeight = h s.cycles
          exact hc.symm
        · rw [hcy, show s.cycles + 1 + k = s.cycles + (k + 1) from by omega]
          exact hk
        · rw [hcy, show s.cycles + 1 + k = s.cycles + (k + 1) from by omega]
          exact hk1
        · rw [hcy, show s.cycles + 1 + k = s.cycles + (k + 1) from by omega]
          exact hk2
        · omega
    · have hstep := scrollStep_changed s _ hc
      have hal : (scrollStep (h s.cycles) s).allLoaded = false := by
        rw [hstep]
        exact hl
      have hat : (scrollStep (h s.cycles) s).attempts = 0 := by
        rw [hstep]
      have hcy : (scrollStep (h s.cycles) s).cycles = s.cycles + 1 := by
        rw [hstep]
      have hlh : (scrollStep (h s.cycles) s).lastHeight = h s.cycles := by
        rw [hstep]
      apply ih
      · exact hal
      · rw [hat]; omega
      · rw [hlh, hcy]
        exact rfl
      · rw [hcy, show s.cycles + 1 + k = s.cycles + (k + 1) from by omega]
        exact hk
      · rw [hcy, show s.cycles + 1 + k = s.cycles + (k + 1) from by omega]
        exact hk1
      · rw [hcy, show s.cycles + 1 + k = s.cycles + (k + 1) from by omega]
        exact hk2
      · omega

/-- C3: for every page-height sequence in which the measured height is
unchanged for 3 consecutive cycles (cycles k, k+1 and k+2 each measure
the height the loop is comparing against), the loop reaches the loaded
terminal state, exiting with the stagnation counter exactly 3 — far
below the courtesy ceiling of 20, which is therefore never the cause of
the exit; and a cycle whose height differs from the previous one resets
the stagnation counter to zero. -/
theorem claim_C3 :
    (∀ (h0 : Nat) (h : Nat → Nat) (k : Nat),
      h k = prevHeight h0 h k →
      h (k + 1) = h k →
      h (k + 2) = h (k + 1) →
      ∀ fuel, k + 3 ≤ fuel →
        (runLoop h fuel (scrollInit h0)).allLoaded = true ∧
        (runLoop h fuel (scrollInit h0)).attempts = 3) ∧
    (∀ (hn : Nat) (s : ScrollState), hn ≠ s.lastHeight →
      (scrollStep hn s).attempts = 0) := by
  constructor
  · intro h0 h k hk hk1 hk2 fuel hf
    have := stag_aux h0 h k (scrollInit h0) rfl (Nat.zero_le 2) rfl
    rw [show (scrollInit h0).cycles + k = k from by simp [scrollInit]] at this
    exact this hk hk1 hk2 fuel hf
  · intro hn s hne
    rw [scrollStep_changed s hn hne]

/-- Witness for C3 at the constant height sequence: stagnation from the
first cycle, loaded after 3 cycles. -/
theorem claim_C3_witness :
    (runLoop (fun _ => 7) 3 (scrollInit 7)).allLoaded = true ∧
    (runLoop (fun _ => 7) 3 (scrollInit 7)).attempts = 3 :=
  claim_C3.1 7 (fun _ => 7) 0 rfl rfl rfl 3 (by omega)

/-- Counterexample to C9 as stated: on the height sequence 1, 2, 3, 4,
4, ... (initial height 0) the fifth cycle executes but does not call
save_state, because that cycle is stagnant and the test
scroll_attempts % 5 == 0 looks at the stagnation counter (then 1), not
at the cycle ordinal. -/
theorem claim_C9_counterexample :
    (runLoop (fun n => min (n + 1) 4) 5 (scrollInit 0)).cycles = 5 ∧
    5 ∉ (runLoop (fun n => min (n + 1) 4) 5 (scrollInit 0)).saves := by
  decide

/-- C9 as amended: the periodic-checkpoint test is applied to the
stagnation counter, not to the cycle ordinal; since on a running cycle
the counter entering the cycle is at most 2, the test is equivalent to
the counter having just been reset, so save_state is called on exactly
those cycles whose measured height differs from the previous one, and
never on a stagnant cycle. -/
theorem claim_C9_amended :
    ∀ (s : ScrollState) (hn : Nat), s.attempts ≤ 2 →
      (((scrollStep hn s).saves = s.saves ++ [s.cycles + 1]) ↔
        hn ≠ s.lastHeight) ∧
      (hn = s.lastHeight → (scrollStep hn s).saves = s.saves) := by
  intro s hn ha
  by_cases hc : hn = s.lastHeight
  · rw [scrollStep_stagnant s hn hc (by omega)]
    constructor
    · constructor
      · intro hlist
        exfalso
        have := congrArg List.length hlist
        simp at this
      · intro hne; exact absurd hc hne
    · intro _; rfl
  · rw [scrollStep_changed s hn hc]
    constructor
    · exact ⟨fun _ => hc, fun _ => rfl⟩
    · intro he; exact absurd he hc

/-- Witness for C9 as amended: from the initial state, a cycle with a
new height calls save_state on cycle 1. -/
theorem claim_C9_witness :
    (scrollStep 1 (scrollInit 0)).saves =
      (scrollInit 0).saves ++ [(scrollInit 0).cycles + 1] :=
  (claim_C9_amended (scrollInit 0) 1 (by decide)).1.mpr (by decide)

/-- C1, evaluated at the failing input: the claim needs the first
upsert of an absent profile_url to store a row whose first_seen and id
the second upsert then preserves, but the insert branch of
save_single_connection passes the keyword source_profile to the
Connection constructor and models.py defines no such column, so the
constructor raises TypeError, the except branch rolls back, and the
call returns False with the store unchanged.  Upserting the url u twice
into the empty store, with occupations X then Y and no injected
database fault, stores nothing either time: no row carrying the
claimed occupation, first_seen and id ever exists. -/
theorem claim_C1 :
    declarativeCtorOk saveKwargs = false ∧
    findByUrl [] "u" = none ∧
    saveSingleConnection [] ⟨"A", "X", "u"⟩ "s" 1 10 SaveOutcome.ok =
      ([], false) ∧
    saveSingleConnection
        (saveSingleConnection [] ⟨"A", "X", "u"⟩ "s" 1 10 SaveOutcome.ok).1
        ⟨"A", "Y", "u"⟩ "s" 2 11 SaveOutcome.ok =
      ([], false) := by
  decide

/-- Membership in the persistence-call list of the accept loop: a tuple
is handed to persistence iff it occurs in the extracted input, its name
is not the sentinel, and it was not already in the seen list. -/
theorem processElements_mem :
    ∀ (input seen : List ConnData) (c : ConnData),
      c ∈ (processElements input seen).2 ↔
        (c ∈ input ∧ c.name ≠ "N/A" ∧ c ∉ seen) := by
  intro input
  induction input with
  | nil => intro seen c; simp [processElements]
  | cons x rest ih =>
    intro seen c
    by_cases hcond : x ∉ seen ∧ x.name ≠ "N/A"
    · simp only [processElements, if_pos hcond]
      constructor
      · intro hmem
        rcases List.mem_cons.mp hmem with rfl | hmem2
        · exact ⟨List.mem_cons_self _ _, hcond.2, hcond.1⟩
        · have hr := (ih (seen ++ [x]) c).mp hmem2
          refine ⟨List.mem_cons_of_mem _ hr.1, hr.2.1, ?_⟩
          intro hcseen
          exact hr.2.2 (List.mem_append_left _ hcseen)
      · rintro ⟨hcin, hname, hseen⟩
        rcases List.mem_cons.mp hcin with rfl | hcrest
        · exact List.mem_cons_self _ _
        · by_cases hcx : c = x
          · subst hcx
            exact List.mem_cons_self _ _
          · apply List.mem_cons_of_mem
            apply (ih (seen ++ [x]) c).mpr
            refine ⟨hcrest, hname, ?_⟩
            simp [List.mem_append, hseen, hcx]
    · simp only [processElements, if_neg hcond]
      rw [ih seen c]
      constructor
      · rintro ⟨hcrest, hname, hseen⟩
        exact ⟨List.mem_cons_of_mem _ hcrest, hname, hseen⟩
      · rintro ⟨hcin, hname, hseen⟩
        rcases List.mem_cons.mp hcin with rfl | hcrest
        · exfalso
          rw [not_and_or] at hcond
          rcases hcond with hxs | hxn
          · exact absurd (not_not.mp hxs) hseen
          · exact hname (not_not.mp hxn)
        · exact ⟨hcrest, hname, hseen⟩

/-- The persistence-call list of the accept loop never repeats a
tuple. -/
theorem processElements_nodup :
    ∀ (input seen : List ConnData), (processElements input seen).2.Nodup := by
  intro input
  induction input with
  | nil => intro seen; simp [processElements]
  | cons x rest ih =>
    intro seen
    by_cases hcond : x ∉ seen ∧ x.name ≠ "N/A"
    · simp only [processElements, if_pos hcond]
      refine List.nodup_cons.mpr ⟨?_, ih (seen ++ [x])⟩
      intro hmem
      have hr := (processElements_mem rest (seen ++ [x]) x).mp hmem
      exact hr.2.2 (by simp)
    · simp only [processElements, if_neg hcond]
      exact ih seen

/-- C5: within a single run of the accept loop (run-local seen list
starting empty), persistence is invoked at most once for every exact
(name, occupation, profile_url) tuple; a tuple that occurs in the
extracted input (once, twice, or more) with a non-sentinel name is
handed to persistence exactly once; and a tuple whose name is the
sentinel is never handed to persistence. -/
theorem claim_C5 :
    ∀ input : List ConnData,
      (∀ c : ConnData, ((processElements input []).2).count c ≤ 1) ∧
      (∀ c : ConnData, c ∈ input → c.name ≠ "N/A" →
        ((processElements input []).2).count c = 1) ∧
      (∀ c : ConnData, c.name = "N/A" → c ∉ (processElements input []).2) := by
  intro input
  have hnd := processElements_nodup input []
  refine ⟨?_, ?_, ?_⟩
  · intro c
    exact List.nodup_iff_count_le_one.mp hnd c
  · intro c hin hname
    apply List.count_eq_one_of_mem hnd
    exact (processElements_mem input [] c).mpr ⟨hin, hname, by simp⟩
  · intro c hname hmem
    have hr := (processElements_mem input [] c).mp hmem
    exact hr.2.1 hname

/-- Witness for C5: the same tuple extracted twice is handed to
persistence exactly once. -/
theorem claim_C5_witness :
    ((processElements [⟨"Alice", "Engineer", "u"⟩, ⟨"Alice", "Engineer", "u"⟩]
        []).2).count ⟨"Alice", "Engineer", "u"⟩ = 1 :=
  (claim_C5 [⟨"Alice", "Engineer", "u"⟩, ⟨"Alice", "Engineer", "u"⟩]).2.1
    ⟨"Alice", "Engineer", "u"⟩ (by decide) (by decide)

end LinkedinScrapper
